import Mathlib

/-!
Verification of the version resolution and classification subsystem of
mcp-repocache: a shallow embedding of `src/mcp/models.py` (the VersionType
enumeration and the Document model), `src/mcp/storage.py` (`setup_db`,
`index_docs`, `validate_version`, `determine_version_category`) and
`src/mcp/git_fetcher.py` (`determine_version`), with theorems about the
spec's claims over that embedding.

Python strings are modelled as Lean `String`; `None` as `Option.none`;
the three anchored regular expressions of `validate_version` are compiled
by hand into character-level matchers (Python `re.match` with a trailing
`$` also matches just before a single final newline, which the matchers
reproduce); logging is modelled by returning the list of warning messages
alongside the result.
-/

namespace RepoCache

/-- The VersionType enumeration of `src/mcp/models.py`, in declaration
order. -/
inductive VersionType where
  | LATEST
  | MAIN_BRANCH
  | LOCAL
  | ERROR
  | DETACHED_HEAD
  | SHALLOW_CLONE
  | NO_REMOTE
  | INITIAL_COMMIT
  | MULTIPLE_REMOTES
  | SUBMODULE
  | EMPTY_REPO
  | CORRUPTED
deriving DecidableEq

/-- `VersionType.value`: the string value of each enum member. -/
def VersionType.value : VersionType → String
  | .LATEST => "latest"
  | .MAIN_BRANCH => "main"
  | .LOCAL => "local"
  | .ERROR => "error"
  | .DETACHED_HEAD => "detached"
  | .SHALLOW_CLONE => "shallow"
  | .NO_REMOTE => "no-remote"
  | .INITIAL_COMMIT => "initial"
  | .MULTIPLE_REMOTES => "multi-remote"
  | .SUBMODULE => "submodule"
  | .EMPTY_REPO => "empty"
  | .CORRUPTED => "corrupted"

/-- `[vt.value for vt in VersionType]`: the 12 category values, in enum
declaration order. -/
def versionTypeValues : List String :=
  ["latest", "main", "local", "error", "detached", "shallow", "no-remote",
   "initial", "multi-remote", "submodule", "empty", "corrupted"]

/-- The Document model of `src/mcp/models.py`: `repo`, `path`, `content`
are strings, `version` is `Optional[str]` (with default `"latest"`, which
does not matter here: a caller may still pass `None` explicitly). -/
structure Document where
  repo : String
  path : String
  content : String
  version : Option String
deriving DecidableEq

/-! ### Python string helpers used by `validate_version` -/

/-- Python `s.lstrip("v")`: remove every leading `v` character. -/
def lstripV (s : String) : String :=
  String.mk (s.toList.dropWhile (fun c => c = 'v'))

/-- Python `s.split(".")` on a character list: `""` splits to `[""]`,
separators produce empty pieces. -/
def splitDotAux : List Char → List (List Char)
  | [] => [[]]
  | c :: rest =>
    let r := splitDotAux rest
    if c = '.' then [] :: r
    else
      match r with
      | [] => [[c]]
      | h :: t => (c :: h) :: t

/-- Python `s.split(".")`. -/
def pySplitDot (s : String) : List String :=
  (splitDotAux s.toList).map String.mk

/-! ### Hand-compiled anchored regular expressions

Each pattern of `validate_version` has the form `^...$` and is used with
`re.match`, so it is anchored on both sides, except that Python's `$` also
matches just before one trailing newline. All three patterns are
backtracking-free once compiled greedily: no character class in them
contains `.` together with a digit boundary that could be given back, and
none contains the newline, so the greedy scan below is complete. -/

/-- Python `$` (non-MULTILINE): the remaining input is empty or a single
trailing newline. -/
def dollarEnd : List Char → Bool
  | [] => true
  | ['\n'] => true
  | _ => false

/-- Consume one-or-more characters satisfying `p` (a greedy `+`); `none`
when the first character does not satisfy `p`. -/
def munch1 (p : Char → Bool) : List Char → Option (List Char)
  | [] => none
  | c :: rest => if p c then some (rest.dropWhile p) else none

/-- The character class `[a-zA-Z0-9._-]` of the pre-release suffix. -/
def suffixChar (c : Char) : Bool :=
  c.isAlphanum || c = '.' || c = '_' || c = '-'

/-- The character class of the git tag pattern's tail: alphanumeric, dot,
underscore, slash, hyphen. -/
def tagChar (c : Char) : Bool :=
  c.isAlphanum || c = '.' || c = '_' || c = '/' || c = '-'

/-- The tail `(?:-[a-zA-Z0-9._-]+)?$` of the semantic version pattern. -/
def semverTail (l : List Char) : Bool :=
  dollarEnd l ||
    (match l with
     | '-' :: rest =>
       match munch1 suffixChar rest with
       | some r => dollarEnd r
       | none => false
     | _ => false)

/-- After `v?`: `\d+\.\d+\.\d+` then `semverTail`. -/
def semverNums (l : List Char) : Bool :=
  match munch1 Char.isDigit l with
  | none => false
  | some l1 =>
    match l1 with
    | '.' :: l2 =>
      match munch1 Char.isDigit l2 with
      | none => false
      | some l3 =>
        match l3 with
        | '.' :: l4 =>
          match munch1 Char.isDigit l4 with
          | none => false
          | some l5 => semverTail l5
        | _ => false
    | _ => false

/-- `re.match` of `semantic_pattern`
`^(v?\d+\.\d+\.\d+)(?:-[a-zA-Z0-9._-]+)?$` (the optional leading `v` is
consumed when present: a digit can never match `v`). -/
def semverMatch (s : String) : Bool :=
  match s.toList with
  | 'v' :: rest => semverNums rest
  | l => semverNums l

/-- `re.match` of `incomplete_semver_pattern` `^\d+\.\d+$`. -/
def incompleteSemverMatch (s : String) : Bool :=
  match munch1 Char.isDigit s.toList with
  | none => false
  | some l1 =>
    match l1 with
    | '.' :: l2 =>
      match munch1 Char.isDigit l2 with
      | none => false
      | some l3 => dollarEnd l3
    | _ => false

/-- `re.match` of `git_tag_pattern`: one alphanumeric character, then any
number of `tagChar` characters, then the anchor. -/
def gitTagMatch (s : String) : Bool :=
  match s.toList with
  | [] => false
  | c :: rest => c.isAlphanum && dollarEnd (rest.dropWhile tagChar)

/-! ### `validate_version` and `determine_version_category`
(`src/mcp/storage.py`) -/

/-- The warning logged when the dot-component count is not 3. -/
def warnComponents (version : String) : String :=
  "Invalid version format: '" ++ version ++
    "'. Expected exactly 3 version components. Using default: 'latest'"

/-- The warning logged for a two-component numeric version. -/
def warnIncomplete (version : String) : String :=
  "Invalid version format: '" ++ version ++
    "'. Looks like incomplete semantic version. Using default: 'latest'"

/-- The warning logged when no pattern matches. -/
def warnInvalid (version : String) : String :=
  "Invalid version format: '" ++ version ++ "'. Using default: 'latest'"

/-- `validate_version` of `src/mcp/storage.py`. The input is
`Optional[str]`; `if not version` is true for both `None` and `""`.
Returns the validated version string together with the list of warning
messages the call logs. -/
def validate_version (version : Option String) : String × List String :=
  match version with
  | none => ("latest", [])
  | some v =>
    if v = "" then ("latest", [])
    else if versionTypeValues.contains v then (v, [])
    else
      let version_parts := pySplitDot (lstripV v)
      if version_parts.length ≠ 3 then ("latest", [warnComponents v])
      else if semverMatch v then (v, [])
      else if incompleteSemverMatch v then ("latest", [warnIncomplete v])
      else if gitTagMatch v then (v, [])
      else ("latest", [warnInvalid v])

/-- `determine_version_category` of `src/mcp/storage.py`. -/
def determine_version_category (version : String) : String :=
  if versionTypeValues.contains version then version else "latest"

/-! ### `determine_version` (`src/mcp/git_fetcher.py`)

The repository state that `determine_version` reads through GitPython is
modelled as an explicit observation record; the outcome of constructing
`Repo(repo_path)` and reading it is an explicit `RepoRead` value, whose
failure constructors stand for the exceptions the function catches. -/

/-- The structural repository state read inside `determine_version`:
`repo.heads` and `repo.tags` as the lists of head/tag names (in git's
order, so `tags[-1]` is the last element), `repo.head.is_detached`,
`repo.is_shallow()`, `repo.remotes` as the list of remote names,
`len(list(repo.iter_commits()))`, and `repo.active_branch` (`none` models
an absent active branch). -/
structure RepoObservation where
  heads : List String
  tags : List String
  head_is_detached : Bool
  is_shallow : Bool
  remotes : List String
  commit_count : Nat
  active_branch : Option String
deriving DecidableEq

/-- The outcome of reading the repository state at `repo_path`:
success, or one of the exception classes `determine_version` catches
(`InvalidGitRepositoryError`, `NoSuchPathError`, any other exception). -/
inductive RepoRead where
  | ok (obs : RepoObservation)
  | invalidGitRepository (msg : String)
  | noSuchPath (msg : String)
  | unexpected (msg : String)
deriving DecidableEq

/-- Whether reading the repository state failed. -/
def RepoRead.isFailure : RepoRead → Bool
  | .ok _ => false
  | _ => true

/-- Whether the failure is the catch-all `except Exception` case (not an
invalid-repository / no-such-path condition). -/
def RepoRead.isUnexpected : RepoRead → Bool
  | .unexpected _ => true
  | _ => false

/-- Python `s.startswith(pre)` on one prefix. -/
def pyStartsWith (s pre : String) : Bool :=
  pre.toList.isPrefixOf s.toList

/-- `repo_url.startswith(("http://", "https://", "git@"))`. -/
def startsWithUrlScheme (url : String) : Bool :=
  pyStartsWith url "http://" || pyStartsWith url "https://" ||
    pyStartsWith url "git@"

/-- The body of `determine_version`'s `try` block: the ordered `if`
chain over the observed repository state. -/
def classifyObs (obs : RepoObservation) (repo_url : String) : String :=
  if obs.heads.isEmpty && obs.tags.isEmpty then "empty"
  else if obs.head_is_detached then "detached"
  else if obs.is_shallow then "shallow"
  else if obs.remotes.isEmpty then "no-remote"
  else if obs.commit_count ≤ 1 then "initial"
  else if obs.remotes.length > 1 then "multi-remote"
  else if !startsWithUrlScheme repo_url then "local"
  else
    match obs.tags.getLast? with
    | some latest_tag => latest_tag
    | none =>
      let current_branch := obs.active_branch.getD "main"
      if current_branch = "main" && obs.tags.isEmpty then "main"
      else current_branch

/-- `determine_version` of `src/mcp/git_fetcher.py`: on a successful read
the `try` body runs (no logging); `InvalidGitRepositoryError` and
`NoSuchPathError` return the `error` value silently; any other exception
logs a warning and returns the `error` value. Returns the version string
together with the list of warning messages logged. -/
def determine_version (repo_path repo_url : String) (read : RepoRead) :
    String × List String :=
  match read with
  | .ok obs => (classifyObs obs repo_url, [])
  | .invalidGitRepository _ => ("error", [])
  | .noSuchPath _ => ("error", [])
  | .unexpected e =>
    ("error", ["Error determining version for " ++ repo_path ++ ": " ++ e])

/-! ### The document store (`setup_db`, `index_docs` of
`src/mcp/storage.py`)

The SQLite database at `db_path` is modelled as the list of tables and
indexes of its schema plus the rows of the `docs` table. The two SQL
statement forms the module issues — `CREATE TABLE IF NOT EXISTS` /
`CREATE INDEX IF NOT EXISTS` — add the object only when no object of the
same name exists. An `INSERT` naming the five data columns applies
SQLite's NOT NULL checks: an explicitly supplied NULL for a NOT NULL
column raises `IntegrityError`; omitted columns (`id`, `created_at`,
`updated_at`) are filled by autoincrement / defaults and are nullable or
auto-filled, so they never violate. Timestamps carry no information the
claims need and are not stored in the row model. -/

/-- One column of the `docs` table as `PRAGMA table_info` reports it:
name, declared type, NOT NULL flag, default expression, primary-key
flag. -/
structure ColumnDef where
  name : String
  type : String
  notNull : Bool
  dflt : Option String
  pk : Bool
deriving DecidableEq

/-- The columns of the `CREATE TABLE` statement in `setup_db`. -/
def docsColumns : List ColumnDef :=
  [⟨"id", "INTEGER", false, none, true⟩,
   ⟨"repo", "TEXT", true, none, false⟩,
   ⟨"path", "TEXT", true, none, false⟩,
   ⟨"content", "TEXT", true, none, false⟩,
   ⟨"version", "TEXT", true, some "'latest'", false⟩,
   ⟨"version_category", "TEXT", true, some "'latest'", false⟩,
   ⟨"created_at", "TIMESTAMP", false, some "CURRENT_TIMESTAMP", false⟩,
   ⟨"updated_at", "TIMESTAMP", false, some "CURRENT_TIMESTAMP", false⟩]

/-- A table of the schema. -/
structure TableDef where
  name : String
  columns : List ColumnDef
deriving DecidableEq

/-- An index of the schema. -/
structure IndexDef where
  name : String
  table : String
  columns : List String
deriving DecidableEq

/-- The `docs` table of `setup_db`. -/
def docsTable : TableDef := ⟨"docs", docsColumns⟩

/-- The six indexes created by `setup_db`, in statement order. -/
def docsIndexes : List IndexDef :=
  [⟨"idx_docs_repo", "docs", ["repo"]⟩,
   ⟨"idx_docs_version", "docs", ["version"]⟩,
   ⟨"idx_docs_version_category", "docs", ["version_category"]⟩,
   ⟨"idx_docs_repo_version", "docs", ["repo", "version"]⟩,
   ⟨"idx_docs_path", "docs", ["path"]⟩,
   ⟨"idx_docs_full_search", "docs", ["repo", "version", "path"]⟩]

/-- A row of the `docs` table: the five data columns as SQL values
(`none` is SQL NULL). -/
structure Row where
  repo : Option String
  path : Option String
  content : Option String
  version : Option String
  version_category : Option String
deriving DecidableEq

/-- The database file at a path: schema objects plus the rows of the
`docs` table. A fresh path holds the empty database. -/
structure DB where
  tables : List TableDef
  indexes : List IndexDef
  rows : List Row
deriving DecidableEq

/-- The empty database found at a fresh `db_path`. -/
def freshDB : DB := ⟨[], [], []⟩

/-- Whether the schema holds a table of this name. -/
def DB.hasTable (db : DB) (n : String) : Bool :=
  db.tables.any (fun t => t.name = n)

/-- Whether the schema holds an index of this name. -/
def DB.hasIndex (db : DB) (n : String) : Bool :=
  db.indexes.any (fun i => i.name = n)

/-- `CREATE TABLE IF NOT EXISTS`. -/
def createTableIfNotExists (db : DB) (t : TableDef) : DB :=
  if db.hasTable t.name then db
  else { db with tables := db.tables ++ [t] }

/-- `CREATE INDEX IF NOT EXISTS`. -/
def createIndexIfNotExists (db : DB) (i : IndexDef) : DB :=
  if db.hasIndex i.name then db
  else { db with indexes := db.indexes ++ [i] }

/-- `setup_db` of `src/mcp/storage.py`: the `CREATE TABLE IF NOT EXISTS`
statement, then the six `CREATE INDEX IF NOT EXISTS` statements in
order. -/
def setup_db (db : DB) : DB :=
  docsIndexes.foldl createIndexIfNotExists (createTableIfNotExists db docsTable)

/-- The value an `INSERT INTO docs (repo, path, content, version,
version_category) VALUES (...)` supplies for each column: the five data
columns carry the row's values, every other column is omitted (filled by
autoincrement or its default, never NULL-checked against an explicit
NULL). -/
def insertedValue (r : Row) (c : String) : Option String :=
  if c = "repo" then r.repo
  else if c = "path" then r.path
  else if c = "content" then r.content
  else if c = "version" then r.version
  else if c = "version_category" then r.version_category
  else none

/-- Whether the insert explicitly names this column (and so supplies a
value SQLite checks against NOT NULL, rather than applying the
default). -/
def columnNamedByInsert (c : String) : Bool :=
  c = "repo" || c = "path" || c = "content" || c = "version" ||
    c = "version_category"

/-- SQLite's NOT NULL check for the `INSERT` statement of `index_docs`
(also issued directly by callers of the storage layer): the first named
NOT NULL column whose supplied value is NULL, if any. -/
def nullViolation (r : Row) : Option ColumnDef :=
  docsColumns.find? fun c =>
    c.notNull && columnNamedByInsert c.name && (insertedValue r c.name).isNone

/-- Executing the `INSERT` of one row into `docs`: rejected with an
`IntegrityError` when a NOT NULL constraint fails, otherwise the row is
appended. -/
def insertDocsRow (db : DB) (r : Row) : Except String DB :=
  match nullViolation r with
  | some c => .error ("NOT NULL constraint failed: docs." ++ c.name)
  | none => .ok { db with rows := db.rows ++ [r] }

/-- The row `index_docs` builds for one document: `version =
validate_version(doc.version)`, `version_category =
determine_version_category(version)`, all five values supplied. -/
def docToRow (doc : Document) : Row :=
  let version := (validate_version doc.version).1
  let version_category := determine_version_category version
  ⟨some doc.repo, some doc.path, some doc.content, some version,
    some version_category⟩

/-- `index_docs` of `src/mcp/storage.py` (the `zim_dir` argument is
unused by the source): `setup_db(db_path)` first, then one `INSERT` per
document in order. -/
def index_docs (docs : List Document) (db : DB) : Except String DB :=
  (docs.map docToRow).foldlM insertDocsRow (setup_db db)

/-- The spec's description of an SSH-style source URL (§4.1 step 7): the
URL begins with `user@host:` for some non-empty user (no `@` or `:` in
it) and non-empty host (no `:` in it). Written only to compare the spec's
wording with the source's literal `git@` prefix test. -/
def sshStyleSpec (s : String) : Bool :=
  let l := s.toList
  let user := l.takeWhile fun c => !(c = '@') && !(c = ':')
  match l.drop user.length with
  | '@' :: r =>
    let host := r.takeWhile fun c => !(c = ':')
    !user.isEmpty && !host.isEmpty && !(r.drop host.length).isEmpty
  | _ => false

/-! ## Theorems -/

/-- Every value `validate_version` returns is the candidate itself or the
default `"latest"`. -/
theorem validate_version_value_cases (s : String) :
    (validate_version (some s)).1 = s ∨ (validate_version (some s)).1 = "latest" := by
  simp only [validate_version]
  split_ifs <;> simp

/-- C1: the claim says `validate("release-1.0")` returns `"release-1.0"`
unchanged because it matches the permissive tag/branch pattern. The code
disagrees: the component-count check runs before the tag pattern, so the
two-dot-component candidate `"release-1.0"` — although it does match the
permissive pattern — is rejected and mapped to `"latest"`, contradicting
the function's own docstring example and
`tests/test_storage.py::test_validate_version_git_tags`. -/
theorem validate_version_rejects_release_tag :
    (validate_version (some "release-1.0")).1 = "latest" ∧
      gitTagMatch "release-1.0" = true ∧
      ("latest" : String) ≠ "release-1.0" := by decide

/-- C2: a non-empty candidate that is none of the 12 category values and
whose dot-split after stripping the leading `v` has a component count
other than 3 is mapped to `"latest"`, with one warning logged that names
the rejected input. -/
theorem validate_version_wrong_component_count (s : String)
    (hne : s ≠ "") (hmem : versionTypeValues.contains s = false)
    (hcount : (pySplitDot (lstripV s)).length ≠ 3) :
    validate_version (some s) =
      ("latest",
        ["Invalid version format: '" ++ s ++
          "'. Expected exactly 3 version components. Using default: 'latest'"]) := by
  have hmem' : s ∉ versionTypeValues := by simpa using hmem
  simp [validate_version, hne, hmem', hcount, warnComponents]

/-- Witness for C2 at the spec's own example `"1.2"`. -/
theorem validate_version_wrong_component_count_witness :
    validate_version (some "1.2") =
      ("latest",
        ["Invalid version format: '" ++ "1.2" ++
          "'. Expected exactly 3 version components. Using default: 'latest'"]) :=
  validate_version_wrong_component_count "1.2" (by decide) (by decide) (by decide)

/-- C6: `validate_version` is idempotent on its value — validating an
already-validated version (including one obtained from `None`) returns it
unchanged. -/
theorem validate_version_idempotent :
    ∀ x : Option String,
      (validate_version (some (validate_version x).1)).1 = (validate_version x).1 := by
  intro x
  cases x with
  | none => decide
  | some s =>
    rcases validate_version_value_cases s with h | h
    · rw [h]; exact h
    · rw [h]; decide

/-- C5: an observation with no branch heads and no tags is classified
`"empty"` whatever the other fields hold — the empty-repository test is
the first condition of the chain. -/
theorem determine_version_empty_first (path url : String)
    (obs : RepoObservation) (hh : obs.heads = []) (ht : obs.tags = []) :
    determine_version path url (.ok obs) = ("empty", []) := by
  simp [determine_version, classifyObs, hh, ht]

/-- Witness for C5: an empty repository that is also detached, shallow,
multi-remote and on a named branch is still `"empty"`. -/
theorem determine_version_empty_first_witness :
    determine_version "/p" "https://example.com/r.git"
        (.ok ⟨[], [], true, true, ["a", "b"], 0, some "dev"⟩) = ("empty", []) :=
  determine_version_empty_first "/p" "https://example.com/r.git" _ rfl rfl

/-- C4: `determine_version` is total on read failures — each caught
exception yields the `"error"` value, and a warning is logged exactly
when the failure is the unexpected (catch-all) kind; the
invalid-repository and path-not-found conditions produce no log. -/
theorem determine_version_failure_handling (path url : String)
    (r : RepoRead) (h : r.isFailure = true) :
    (determine_version path url r).1 = "error" ∧
      ((determine_version path url r).2 = [] ↔ r.isUnexpected = false) := by
  cases r <;>
    simp_all [determine_version, RepoRead.isFailure, RepoRead.isUnexpected]

/-- Witness for C4 at a concrete unexpected failure. -/
theorem determine_version_failure_handling_witness :
    (determine_version "/repo" "u" (.unexpected "boom")).1 = "error" ∧
      ((determine_version "/repo" "u" (.unexpected "boom")).2 = [] ↔
        RepoRead.isUnexpected (.unexpected "boom") = false) :=
  determine_version_failure_handling "/repo" "u" (.unexpected "boom") rfl

/-- C3 counterexample: with conditions 1-6 all unmatched, the SSH-style
URL `alice@example.com:repo.git` (a `user@host:` form per the spec's
words, not starting with `git@`) is classified `"local"`, although the
claim says an SSH-style source URL must not be. The code tests only the
three literal prefixes. -/
theorem determine_version_ssh_counterexample :
    classifyObs ⟨["main"], [], false, false, ["origin"], 2, some "main"⟩
        "alice@example.com:repo.git" = "local" ∧
      sshStyleSpec "alice@example.com:repo.git" = true ∧
      startsWithUrlScheme "alice@example.com:repo.git" = false := by decide

/-- C3 amended: given that conditions 1-6 did not match and that neither
a tag nor the active branch is itself the literal string `"local"`, the
classifier returns `"local"` exactly when the source URL does not begin
with one of the three literal prefixes `http://`, `https://`, `git@`
(not: any SSH-style `user@host:` form). -/
theorem determine_version_local_iff (obs : RepoObservation) (url : String)
    (h1 : (obs.heads.isEmpty && obs.tags.isEmpty) = false)
    (h2 : obs.head_is_detached = false)
    (h3 : obs.is_shallow = false)
    (h4 : obs.remotes.isEmpty = false)
    (h5 : ¬ obs.commit_count ≤ 1)
    (h6 : ¬ obs.remotes.length > 1)
    (htag : "local" ∉ obs.tags)
    (hbr : obs.active_branch ≠ some "local") :
    classifyObs obs url = "local" ↔ startsWithUrlScheme url = false := by
  simp only [classifyObs, h1, h2, h3, h4, h5, h6, Bool.false_eq_true, if_false]
  cases hp : startsWithUrlScheme url with
  | false => simp
  | true =>
    simp only [Bool.not_true, Bool.false_eq_true, if_false]
    constructor
    · intro hres
      exfalso
      revert hres
      cases hlast : obs.tags.getLast? with
      | some t =>
        intro hres
        exact htag (hres ▸ List.mem_of_mem_getLast? (by simp [hlast, Option.mem_def]))
      | none =>
        cases hab : obs.active_branch with
        | none =>
          simp only [Option.getD]
          split_ifs with hc
          · intro hres; exact absurd hres (by decide)
          · intro hres; exact absurd hres (by decide)
        | some b =>
          simp only [Option.getD]
          split_ifs with hc
          · intro hres; exact absurd hres (by decide)
          · intro hres
            exact (hab ▸ hbr) (by rw [hres])
    · intro hfalse
      exact absurd hfalse (by simp)

/-- Witness for C3's amended theorem at the test suite's local-path URL. -/
theorem determine_version_local_iff_witness :
    classifyObs ⟨["main"], [], false, false, ["origin"], 2, some "main"⟩
        "/local/path/to/repo" = "local" ↔
      startsWithUrlScheme "/local/path/to/repo" = false :=
  determine_version_local_iff _ _ (by decide) (by decide) (by decide)
    (by decide) (by decide) (by decide) (by decide) (by decide)

/-! ### Lemmas about the store -/

theorem rows_createTableIfNotExists (db : DB) (t : TableDef) :
    (createTableIfNotExists db t).rows = db.rows := by
  unfold createTableIfNotExists; split <;> rfl

theorem rows_createIndexIfNotExists (db : DB) (i : IndexDef) :
    (createIndexIfNotExists db i).rows = db.rows := by
  unfold createIndexIfNotExists; split <;> rfl

theorem tables_createIndexIfNotExists (db : DB) (i : IndexDef) :
    (createIndexIfNotExists db i).tables = db.tables := by
  unfold createIndexIfNotExists; split <;> rfl

theorem rows_indexFold (l : List IndexDef) :
    ∀ db : DB, (l.foldl createIndexIfNotExists db).rows = db.rows := by
  induction l with
  | nil => intro db; rfl
  | cons i l ih =>
    intro db
    rw [List.foldl_cons, ih, rows_createIndexIfNotExists]

theorem tables_indexFold (l : List IndexDef) :
    ∀ db : DB, (l.foldl createIndexIfNotExists db).tables = db.tables := by
  induction l with
  | nil => intro db; rfl
  | cons i l ih =>
    intro db
    rw [List.foldl_cons, ih, tables_createIndexIfNotExists]

/-- `setup_db` touches only the schema: the rows survive. -/
theorem rows_setup_db (db : DB) : (setup_db db).rows = db.rows := by
  unfold setup_db
  rw [rows_indexFold, rows_createTableIfNotExists]

theorem hasTable_createTableIfNotExists (db : DB) (t : TableDef) :
    (createTableIfNotExists db t).hasTable t.name = true := by
  by_cases h : db.hasTable t.name = true
  · simp [createTableIfNotExists, h]
  · simp only [createTableIfNotExists]
    rw [if_neg h]
    simp [DB.hasTable]

theorem hasTable_setup_db (db : DB) : (setup_db db).hasTable "docs" = true := by
  unfold setup_db
  show (docsIndexes.foldl createIndexIfNotExists
      (createTableIfNotExists db docsTable)).tables.any _ = true
  rw [tables_indexFold]
  exact hasTable_createTableIfNotExists db docsTable

theorem createTable_of_hasTable (db : DB) (t : TableDef)
    (h : db.hasTable t.name = true) : createTableIfNotExists db t = db := by
  simp [createTableIfNotExists, h]

theorem createIndex_of_hasIndex (db : DB) (i : IndexDef)
    (h : db.hasIndex i.name = true) : createIndexIfNotExists db i = db := by
  simp [createIndexIfNotExists, h]

theorem hasIndex_createIndexIfNotExists_self (db : DB) (i : IndexDef) :
    (createIndexIfNotExists db i).hasIndex i.name = true := by
  by_cases h : db.hasIndex i.name = true
  · simp [createIndexIfNotExists, h]
  · simp only [createIndexIfNotExists]
    rw [if_neg h]
    simp [DB.hasIndex]

theorem hasIndex_mono_createIndex (db : DB) (i : IndexDef) (n : String)
    (h : db.hasIndex n = true) :
    (createIndexIfNotExists db i).hasIndex n = true := by
  unfold createIndexIfNotExists
  split
  · exact h
  · unfold DB.hasIndex at h ⊢
    simp only [List.any_append]
    simp [h]

theorem hasIndex_mono_indexFold (l : List IndexDef) :
    ∀ (db : DB) (n : String), db.hasIndex n = true →
      (l.foldl createIndexIfNotExists db).hasIndex n = true := by
  induction l with
  | nil => intro db n h; exact h
  | cons i l ih =>
    intro db n h
    rw [List.foldl_cons]
    exact ih _ n (hasIndex_mono_createIndex db i n h)

theorem hasIndex_indexFold_of_mem (l : List IndexDef) :
    ∀ (db : DB) (i : IndexDef), i ∈ l →
      (l.foldl createIndexIfNotExists db).hasIndex i.name = true := by
  induction l with
  | nil => intro db i h; cases h
  | cons j l ih =>
    intro db i h
    rw [List.foldl_cons]
    rcases List.mem_cons.mp h with rfl | h
    · exact hasIndex_mono_indexFold l _ _
        (hasIndex_createIndexIfNotExists_self db i)
    · exact ih _ i h

theorem hasIndex_setup_db (db : DB) (i : IndexDef) (h : i ∈ docsIndexes) :
    (setup_db db).hasIndex i.name = true := by
  unfold setup_db
  exact hasIndex_indexFold_of_mem _ _ _ h

theorem indexFold_of_all_present (l : List IndexDef) :
    ∀ db : DB, (∀ i ∈ l, db.hasIndex i.name = true) →
      l.foldl createIndexIfNotExists db = db := by
  induction l with
  | nil => intro db _; rfl
  | cons j l ih =>
    intro db h
    rw [List.foldl_cons, createIndex_of_hasIndex _ _ (h j (by simp))]
    exact ih db fun i hi => h i (List.mem_cons_of_mem _ hi)

/-- One `INSERT` built by `index_docs` always succeeds and appends its
row: all five values are supplied non-NULL. -/
theorem insertDocsRow_docToRow (db : DB) (d : Document) :
    insertDocsRow db (docToRow d) =
      Except.ok { db with rows := db.rows ++ [docToRow d] } := rfl

/-- Full characterization of `index_docs`: it initializes the schema and
appends one validated/categorized row per document, in order. -/
theorem index_docs_eq (docs : List Document) (db : DB) :
    index_docs docs db =
      Except.ok
        { setup_db db with rows := (setup_db db).rows ++ docs.map docToRow } := by
  have aux : ∀ (ds : List Document) (db0 : DB),
      (ds.map docToRow).foldlM insertDocsRow db0 =
        Except.ok { db0 with rows := db0.rows ++ ds.map docToRow } := by
    intro ds
    induction ds with
    | nil =>
      intro db0
      show pure db0 = Except.ok { db0 with rows := db0.rows ++ [] }
      rw [List.append_nil]
      rfl
    | cons d ds ih =>
      intro db0
      rw [List.map_cons, List.foldlM_cons, insertDocsRow_docToRow]
      show (ds.map docToRow).foldlM insertDocsRow _ = _
      rw [ih]
      simp
  exact aux docs (setup_db db)

/-- The invariant of a persisted row: its stored category is exactly what
the categorizer produces for its stored version, and that category is one
of the 12 fixed values. -/
def rowInv (r : Row) : Prop :=
  ∃ v, r.version = some v ∧
    r.version_category = some (determine_version_category v) ∧
    determine_version_category v ∈ versionTypeValues

/-- The categorizer's output is always one of the 12 values. -/
theorem determine_version_category_mem (v : String) :
    determine_version_category v ∈ versionTypeValues := by
  unfold determine_version_category
  split_ifs with h
  · simpa using h
  · simp [versionTypeValues]

/-- The row `index_docs` builds satisfies the category invariant by
construction. -/
theorem docToRow_inv (d : Document) : rowInv (docToRow d) :=
  ⟨(validate_version d.version).1, rfl, rfl, determine_version_category_mem _⟩

/-- C7: `index_docs` preserves and establishes the row invariant — every
row it persists stores `version_category =
determine_version_category(version)` for its own stored `version`, never
an independently supplied value — and `determine_version_category ∘
validate_version` lands in the 12 category values on every input. -/
theorem index_docs_category_invariant (docs : List Document) (db db' : DB)
    (hok : index_docs docs db = Except.ok db')
    (hold : ∀ r ∈ db.rows, rowInv r) :
    (∀ r ∈ db'.rows, rowInv r) ∧
      ∀ x : Option String,
        determine_version_category (validate_version x).1 ∈ versionTypeValues := by
  refine ⟨?_, fun x => determine_version_category_mem _⟩
  rw [index_docs_eq] at hok
  have hdb' :
      db' = { setup_db db with
                rows := (setup_db db).rows ++ docs.map docToRow } := by
    cases hok; rfl
  subst hdb'
  intro r hr
  have hr' : r ∈ (setup_db db).rows ++ docs.map docToRow := hr
  rw [rows_setup_db] at hr'
  rcases List.mem_append.mp hr' with h | h
  · exact hold r h
  · rcases List.mem_map.mp h with ⟨d, _, rfl⟩
    exact docToRow_inv d

/-- Witness for C7: one document indexed into a fresh store. -/
theorem index_docs_category_invariant_witness :
    (∀ r ∈ ({ setup_db freshDB with
        rows := (setup_db freshDB).rows ++
          [Document.mk "r" "README.md" "c" (some "1.2.3")].map docToRow } : DB).rows,
      rowInv r) ∧
      ∀ x : Option String,
        determine_version_category (validate_version x).1 ∈ versionTypeValues :=
  index_docs_category_invariant [⟨"r", "README.md", "c", some "1.2.3"⟩]
    freshDB _ (index_docs_eq _ _) (by simp [freshDB])

/-- C8: an `INSERT` that explicitly supplies NULL for `version` is
rejected by the NOT NULL constraint and propagated as an error; a
successful insert never adds a NULL-version row, so no such row is ever
persisted. -/
theorem insert_null_version_rejected (db : DB) (r : Row) :
    (r.version = none → ∃ e, insertDocsRow db r = Except.error e) ∧
      ∀ db', insertDocsRow db r = Except.ok db' →
        (∀ s ∈ db.rows, s.version ≠ none) →
        ∀ s ∈ db'.rows, s.version ≠ none := by
  constructor
  · intro hv
    have hsome : (nullViolation r).isSome = true := by
      rw [nullViolation, List.find?_isSome]
      refine ⟨⟨"version", "TEXT", true, some "'latest'", false⟩,
        by simp [docsColumns], ?_⟩
      simp [insertedValue, columnNamedByInsert, hv]
    cases hc : nullViolation r with
    | none => rw [hc] at hsome; simp at hsome
    | some c =>
      exact ⟨"NOT NULL constraint failed: docs." ++ c.name,
        by simp [insertDocsRow, hc]⟩
  · intro db' hok hrows s hs
    cases hc : nullViolation r with
    | some c => simp [insertDocsRow, hc] at hok
    | none =>
      simp only [insertDocsRow, hc] at hok
      have hdb' : db' = { db with rows := db.rows ++ [r] } := by
        cases hok; rfl
      subst hdb'
      have hs' : s ∈ db.rows ++ [r] := hs
      rcases List.mem_append.mp hs' with h | h
      · exact hrows s h
      · have hsr : s = r := by simpa using h
        subst hsr
        have hver := List.find?_eq_none.mp hc
          ⟨"version", "TEXT", true, some "'latest'", false⟩ (by simp [docsColumns])
        simp [insertedValue, columnNamedByInsert, Option.isNone_iff_eq_none] at hver
        exact hver

/-- Witness for C8: a NULL-version insert into the fresh store fails. -/
theorem insert_null_version_rejected_witness :
    ∃ e, insertDocsRow freshDB
        ⟨some "r", some "p", some "c", none, some "latest"⟩ = Except.error e :=
  (insert_null_version_rejected freshDB
    ⟨some "r", some "p", some "c", none, some "latest"⟩).1 rfl

/-- C9: `setup_db` is idempotent — a second run changes nothing, no
duplicate tables or indexes appear — and it never touches existing
rows. -/
theorem setup_db_idempotent :
    ∀ db : DB, setup_db (setup_db db) = setup_db db ∧
      (setup_db db).rows = db.rows := by
  intro db
  refine ⟨?_, rows_setup_db db⟩
  show docsIndexes.foldl createIndexIfNotExists
      (createTableIfNotExists (setup_db db) docsTable) = setup_db db
  rw [createTable_of_hasTable _ _ (hasTable_setup_db db)]
  exact indexFold_of_all_present _ _ fun i hi => hasIndex_setup_db db i hi

/-- All six required indexes exist in the schema. -/
def allDocsIndexesPresent (db : DB) : Bool :=
  docsIndexes.all fun i => db.hasIndex i.name

theorem hasTable_rowsUpdate (db : DB) (rs : List Row) (n : String) :
    ({ db with rows := rs } : DB).hasTable n = db.hasTable n := rfl

theorem allPresent_rowsUpdate (db : DB) (rs : List Row) :
    allDocsIndexesPresent { db with rows := rs } = allDocsIndexesPresent db := rfl

theorem rows_rowsUpdate (db : DB) (rs : List Row) :
    ({ db with rows := rs } : DB).rows = rs := rfl

theorem rowsUpdate_append_nil (db : DB) :
    ({ db with rows := db.rows ++ [] } : DB) = db := by
  rw [List.append_nil]

/-- The six indexes are all present after `setup_db`. -/
theorem allPresent_setup_db (db : DB) :
    allDocsIndexesPresent (setup_db db) = true := by
  simp only [allDocsIndexesPresent, List.all_eq_true]
  intro i hi
  exact hasIndex_setup_db db i hi

/-- C10: `index_docs` initializes the schema itself — on any store,
including an uninitialized one, it succeeds, the resulting store has the
`docs` table and all six indexes, and the rows are the old rows plus one
per document; on a fresh path with an empty document list it creates the
schema (inserting nothing) and is not a no-op. -/
theorem index_docs_creates_schema :
    (∀ (docs : List Document) (db : DB), ∃ db',
        index_docs docs db = Except.ok db' ∧ db'.hasTable "docs" = true ∧
          allDocsIndexesPresent db' = true ∧
          db'.rows = db.rows ++ docs.map docToRow) ∧
      index_docs [] freshDB = Except.ok (setup_db freshDB) ∧
        (setup_db freshDB).rows = [] ∧ setup_db freshDB ≠ freshDB := by
  refine ⟨fun docs db => ⟨_, index_docs_eq docs db, ?_, ?_, ?_⟩, ?_, ?_, ?_⟩
  · rw [hasTable_rowsUpdate]
    exact hasTable_setup_db db
  · rw [allPresent_rowsUpdate]
    exact allPresent_setup_db db
  · rw [rows_rowsUpdate, rows_setup_db]
  · rw [index_docs_eq, List.map_nil, rowsUpdate_append_nil]
  · rw [rows_setup_db]; rfl
  · decide

end RepoCache
